import Mathlib

/-
Verification of the plug-in protocol of coverage/plugin.py: the
`CoveragePlugin`, `FileTracer` and `FileReporter` base classes with their
default method implementations.  Pure methods become Lean functions; the
file system that `FileReporter.source` reads from is passed explicitly as a
map from file names to contents; fallible methods return `Except`.
-/

/-- A stack frame as the tracer sees it: `f_lineno` is the line currently
executing.  Only the field the embedded methods consult is modelled. -/
structure FrameType where
  f_lineno : Int

/-- An execution-phase tracer (base class `FileTracer`).  The base class
holds no state; subclasses may add their own, which none of the default
methods consult. -/
structure FileTracer

/-- Default `FileTracer.line_number_range`: the frame's own line, as the
inclusive pair `(lineno, lineno)` (plugin.py lines 306-321). -/
def FileTracer.line_number_range (self : FileTracer) (frame : FrameType) : Int × Int :=
  (frame.f_lineno, frame.f_lineno)

/-- An analysis-phase reporter (base class `FileReporter`).  `__init__`
stores the identifying path as `self.filename`; `subclassState` stands for
whatever further attributes a subclass adds, which no base-class method
consults. -/
structure FileReporter where
  filename : String
  subclassState : List String

/-- A Python value as the comparison methods see it: either a `FileReporter`
instance (of any subclass) or some other object, carried with a
description of what it is. -/
inductive PyObject where
  | reporter (r : FileReporter)
  | other (desc : String)

/-- The fatal plugin-contract violation `_needs_to_implement` raises,
identifying the offending plugin (or class) and the method. -/
structure ContractViolation where
  offender : String
  method : String

/-- Modelled from the spec: `_needs_to_implement` lives in `coverage.misc`,
outside this file; per the spec, a missing required capability "is a fatal
plugin-contract violation, surfaced immediately to the user identifying the
offending plugin and method".  It never returns a value. -/
def needs_to_implement {α : Type} (that func_name : String) : Except ContractViolation α :=
  Except.error ⟨that, func_name⟩

/-- A coverage plug-in (base class `CoveragePlugin`).  `plugin_name` is the
name that identifies the plug-in in diagnostics. -/
structure CoveragePlugin where
  plugin_name : String

/-- What `CoveragePlugin.file_reporter` may produce: a reporter, or the
string sentinel `"python"` asking for the native Python reporter. -/
inductive FileReporterResult where
  | reporter (r : FileReporter)
  | python

/-- Base `CoveragePlugin.file_tracer`: returns `None`, declining the file
(plugin.py lines 128-166). -/
def CoveragePlugin.file_tracer (self : CoveragePlugin) (filename : String) :
    Option FileTracer :=
  none

/-- Base `CoveragePlugin.file_reporter`: no default; calls
`_needs_to_implement(self, "file_reporter")` (plugin.py lines 168-180). -/
def CoveragePlugin.file_reporter (self : CoveragePlugin) (filename : String) :
    Except ContractViolation FileReporterResult :=
  needs_to_implement self.plugin_name "file_reporter"

/-- Default `FileReporter.source`: reads the file named `self.filename`
from the file system and decodes it as UTF-8 (plugin.py lines 362-374).
The file system is the explicit map `fs` from names to decoded contents. -/
def FileReporter.source (self : FileReporter) (fs : String → String) : String :=
  fs self.filename

/-- Base `FileReporter.lines`: no default; calls
`_needs_to_implement(self, "lines")` (plugin.py lines 376-385).  The
offender named is the `FileReporter` base class itself. -/
def FileReporter.lines (self : FileReporter) : Except ContractViolation (Finset Int) :=
  needs_to_implement "FileReporter" "lines"

/-- Default `FileReporter.excluded_lines`: the empty set (plugin.py 387-398). -/
def FileReporter.excluded_lines (self : FileReporter) : Finset Int :=
  ∅

/-- Default `FileReporter.translate_lines`: `set(lines)`, the recorded
sequence of line numbers as a set, unchanged (plugin.py lines 400-418). -/
def FileReporter.translate_lines (self : FileReporter) (lines : List Int) : Finset Int :=
  lines.toFinset

/-- Default `FileReporter.arcs`: the empty set (plugin.py lines 420-432). -/
def FileReporter.arcs (self : FileReporter) : Finset (Int × Int) :=
  ∅

/-- Default `FileReporter.no_branch_lines`: the empty set (plugin.py 434-445). -/
def FileReporter.no_branch_lines (self : FileReporter) : Finset Int :=
  ∅

/-- Default `FileReporter.translate_arcs`: returns `arcs` unchanged
(plugin.py lines 447-458). -/
def FileReporter.translate_arcs (self : FileReporter) (arcs : Finset (Int × Int)) :
    Finset (Int × Int) :=
  arcs

/-- Default `FileReporter.exit_counts`: the empty dict, modelled as an
empty association list from line number to exit count (plugin.py 460-471). -/
def FileReporter.exit_counts (self : FileReporter) : List (Int × Int) :=
  []

/-- Default `FileReporter.missing_arc_description`: the f-string
`"Line {start} didn't jump to line {end}"` (plugin.py lines 473-486). -/
def FileReporter.missing_arc_description (self : FileReporter) (start stop : Int)
    (executed_arcs : Option (Finset (Int × Int))) : String :=
  "Line " ++ toString start ++ " didn't jump to line " ++ toString stop

/-- Is `c` one of the line-boundary characters of Python's
`str.splitlines`: \n, \r, \v, \f, FS, GS, RS, NEL, LINE SEPARATOR,
PARAGRAPH SEPARATOR (\r\n is handled by the scanner itself). -/
def pyBoundary (c : Char) : Bool :=
  c == '\n' || c == '\r' || c == '\x0B' || c == '\x0C' ||
  c == Char.ofNat 0x1C || c == Char.ofNat 0x1D || c == Char.ofNat 0x1E ||
  c == Char.ofNat 0x85 || c == Char.ofNat 0x2028 || c == Char.ofNat 0x2029

/-- The scanner of Python's `str.splitlines()` (keepends false): `acc`
holds the current line reversed; a \r immediately followed by \n ends one
line and consumes both characters; a terminal line break opens no further
line. -/
def splitlinesAux : List Char → List Char → List (List Char)
  | [], acc => if acc.isEmpty then [] else [acc.reverse]
  | c :: rest, acc =>
      if pyBoundary c then
        match rest with
        | [] => [acc.reverse]
        | r2 :: rest2 =>
            if c == '\r' && r2 == '\n' then acc.reverse :: splitlinesAux rest2 []
            else acc.reverse :: splitlinesAux (r2 :: rest2) []
      else splitlinesAux rest (c :: acc)

/-- Python's `str.splitlines()` on a Lean string. -/
def pySplitlines (s : String) : List String :=
  (splitlinesAux s.data []).map String.mk

/-- Default `FileReporter.source_token_lines`: one token line per line of
`source().splitlines()`, each line a single token `('txt', line)`
(plugin.py lines 488-517). -/
def FileReporter.source_token_lines (self : FileReporter) (fs : String → String) :
    List (List (String × String)) :=
  (pySplitlines (self.source fs)).map fun line => [("txt", line)]

/-- Concatenation of the token texts of one tokenized line. -/
def tokenText (toks : List (String × String)) : String :=
  String.join (toks.map Prod.snd)

/-- Joining a list of lines (as character lists) with a newline character
between consecutive lines. -/
def joinNL : List (List Char) → List Char
  | [] => []
  | [l] => l
  | l :: rest => l ++ '\n' :: joinNL rest

/-- Joining a list of lines with newline characters between them. -/
def joinLines : List String → String
  | [] => ""
  | [line] => line
  | line :: rest => line ++ "\n" ++ joinLines rest

/-- The round trip of the `source_token_lines` docstring: concatenate the
token texts of each yielded line, then join the per-line strings with
newlines. -/
def tokenRoundTrip (self : FileReporter) (fs : String → String) : String :=
  joinLines ((self.source_token_lines fs).map tokenText)

/-- `FileReporter.__eq__`: true exactly when `other` is a `FileReporter`
whose `filename` equals ours (plugin.py lines 519-520). -/
def FileReporter.eq (self : FileReporter) (other : PyObject) : Bool :=
  match other with
  | PyObject.reporter r => self.filename == r.filename
  | PyObject.other _ => false

/-- `FileReporter.__lt__`: true exactly when `other` is a `FileReporter`
whose `filename` is lexicographically greater than ours (plugin.py lines
522-523). -/
def FileReporter.lt (self : FileReporter) (other : PyObject) : Bool :=
  match other with
  | PyObject.reporter r => decide (self.filename < r.filename)
  | PyObject.other _ => false

/-- The type-level hash slot of `FileReporter`: the source sets
`__hash__ = None` (plugin.py line 525), so the type offers no hash
function at all. -/
def FileReporter.hashSlot : Option (FileReporter → Int) :=
  none

/-- Python's hashing protocol on a `FileReporter`: `hash(obj)` consults the
type's hash slot and fails with a TypeError when the slot is `None`. -/
def pyHash (r : FileReporter) : Except String Int :=
  match FileReporter.hashSlot with
  | none => Except.error "unhashable type"
  | some h => Except.ok (h r)

/-- Consistency of `exit_counts()` with `arcs()`: every line number
appearing as the `prev` of some arc is mapped by `exit_counts` to the
number of distinct `next` values paired with it in `arcs`. -/
def ExitCountsConsistent (r : FileReporter) : Prop :=
  ∀ p ∈ r.arcs, r.exit_counts.lookup p.1 =
    some (Int.ofNat (((r.arcs.filter fun q => q.1 = p.1).image Prod.snd).card))

/-- The splitlines scanner yields at least one line unless both the input
and the accumulator are empty. -/
theorem splitlinesAux_ne_nil (l acc : List Char) (h : l ≠ [] ∨ acc ≠ []) :
    splitlinesAux l acc ≠ [] := by
  induction l, acc using splitlinesAux.induct with
  | case1 a ha =>
      rcases h with h | h
      · exact absurd rfl h
      · exact absurd (List.isEmpty_iff.mp ha) h
  | case2 a ha => simp [splitlinesAux, ha]
  | case3 c acc hb => simp [splitlinesAux, hb]
  | case4 c acc hb r2 rest2 hcr ih => simp [splitlinesAux, hb, hcr]
  | case5 c acc hb r2 rest2 hcr ih => simp [splitlinesAux, hb, hcr]
  | case6 c rest acc hnb ih =>
      have hstep : splitlinesAux (c :: rest) acc = splitlinesAux rest (c :: acc) := by
        cases rest <;> simp [splitlinesAux, hnb]
      rw [hstep]
      exact ih (Or.inr (List.cons_ne_nil c acc))

/-- Unfolding of `joinNL` at a cons whose tail is known nonempty. -/
theorem joinNL_cons_of_ne_nil (x : List Char) (L : List (List Char)) (h : L ≠ []) :
    joinNL (x :: L) = x ++ '\n' :: joinNL L := by
  cases L with
  | nil => exact absurd rfl h
  | cons y ys => rfl

/-- On text whose only line-boundary character is the newline and which does
not end in a newline, rejoining the split lines with newlines restores the
text (with the pending accumulator prepended). -/
theorem joinNL_splitlinesAux (l acc : List Char) :
    (∀ c ∈ l, pyBoundary c = true → c = '\n') → l.getLast? ≠ some '\n' →
    joinNL (splitlinesAux l acc) = acc.reverse ++ l := by
  induction l, acc using splitlinesAux.induct with
  | case1 a ha =>
      intro _ _
      simp [splitlinesAux, ha, List.isEmpty_iff.mp ha, joinNL]
  | case2 a ha =>
      intro _ _
      simp [splitlinesAux, ha, joinNL]
  | case3 c acc hb =>
      intro h1 h2
      have hc : c = '\n' := h1 c (by simp) hb
      subst hc
      simp at h2
  | case4 c acc hb r2 rest2 hcr ih =>
      intro h1 h2
      have hcr1 : c = '\r' := by
        have := ((Bool.and_eq_true _ _).mp hcr).1
        exact beq_iff_eq.mp this
      have hc : c = '\n' := h1 c (by simp) hb
      rw [hcr1] at hc
      exact absurd hc (by decide)
  | case5 c acc hb r2 rest2 hcr ih =>
      intro h1 h2
      have hc : c = '\n' := h1 c (by simp) hb
      subst hc
      have hne : splitlinesAux (r2 :: rest2) [] ≠ [] :=
        splitlinesAux_ne_nil _ _ (Or.inl (List.cons_ne_nil _ _))
      have hstep : splitlinesAux ('\n' :: r2 :: rest2) acc =
          acc.reverse :: splitlinesAux (r2 :: rest2) [] := by
        simp [splitlinesAux, hb, hcr]
      rw [hstep, joinNL_cons_of_ne_nil _ _ hne]
      rw [ih (fun d hd hbd => h1 d (List.mem_cons_of_mem _ hd) hbd)
          (by rw [List.getLast?_cons_cons] at h2; exact h2)]
      simp
  | case6 c rest acc hnb ih =>
      intro h1 h2
      have hstep : splitlinesAux (c :: rest) acc = splitlinesAux rest (c :: acc) := by
        cases rest <;> simp [splitlinesAux, hnb]
      rw [hstep]
      have h2' : rest.getLast? ≠ some '\n' := by
        cases rest with
        | nil => simp
        | cons y ys => rw [List.getLast?_cons_cons] at h2; exact h2
      rw [ih (fun d hd hbd => h1 d (List.mem_cons_of_mem _ hd) hbd) h2']
      simp

/-- `joinLines` over strings agrees with `joinNL` over their characters. -/
theorem joinLines_map_mk (L : List (List Char)) :
    joinLines (L.map String.mk) = String.mk (joinNL L) := by
  induction L using joinNL.induct with
  | case1 => rfl
  | case2 l => rfl
  | case3 l l2 hne ih =>
      cases l2 with
      | nil => exact (hne rfl).elim
      | cons a as =>
          show String.mk l ++ "\n" ++ joinLines ((a :: as).map String.mk) = _
          rw [ih]
          apply String.ext
          simp [String.data_append, List.append_assoc, joinNL]

/-- The round trip of the default tokenization is joining the split source
lines: each token line carries exactly its source line as text. -/
theorem tokenRoundTrip_eq_joinLines (r : FileReporter) (fs : String → String) :
    tokenRoundTrip r fs = joinLines (pySplitlines (r.source fs)) := by
  unfold tokenRoundTrip FileReporter.source_token_lines
  rw [List.map_map]
  show joinLines (List.map id (pySplitlines (r.source fs))) = _
  rw [List.map_id]

/-- C1 (amended): for a reporter using the default `source()` and
`source_token_lines()`, concatenating the token texts per line and joining
the lines with newlines reproduces `source()` exactly whenever the source
text contains no line-boundary character other than the newline and does
not end with a newline. -/
theorem source_token_lines_round_trip (r : FileReporter) (fs : String → String)
    (h1 : ∀ c ∈ (r.source fs).data, pyBoundary c = true → c = '\n')
    (h2 : (r.source fs).data.getLast? ≠ some '\n') :
    tokenRoundTrip r fs = r.source fs := by
  rw [tokenRoundTrip_eq_joinLines, pySplitlines, joinLines_map_mk,
    joinNL_splitlinesAux (r.source fs).data [] h1 h2]
  exact String.ext (by simp)

/-- Counterexample to C1 as stated: on the two-character source "a\n" the
round trip yields "a", dropping the trailing newline, so it does not
reproduce `source()` for every possible source text. -/
theorem source_token_lines_round_trip_cex :
    tokenRoundTrip ⟨"foo.py", []⟩ (fun _ => "a\n") ≠
      FileReporter.source ⟨"foo.py", []⟩ (fun _ => "a\n") := by
  decide

/-- Witness for the amended C1 at the concrete source "ab\ncd". -/
theorem source_token_lines_round_trip_witness :
    tokenRoundTrip ⟨"foo.py", []⟩ (fun _ => "ab\ncd") =
      FileReporter.source ⟨"foo.py", []⟩ (fun _ => "ab\ncd") :=
  source_token_lines_round_trip ⟨"foo.py", []⟩ (fun _ => "ab\ncd") (by decide) (by decide)

/-- C2: FileReporter equality holds exactly when the identifying file paths
are equal, whatever other (subclass) state the two reporters carry. -/
theorem FileReporter.eq_iff_same_filename (a b : FileReporter) :
    a.eq (PyObject.reporter b) = true ↔ a.filename = b.filename := by
  simp [FileReporter.eq]

/-- C3: the less-than comparison is a strict total order by file path:
among reporters with pairwise distinct paths, exactly one of `a < b` and
`b < a` holds (the two booleans differ), and `<` is transitive. -/
theorem lt_strict_total_order (a b c : FileReporter)
    (hab : a.filename ≠ b.filename) (hbc : b.filename ≠ c.filename)
    (hac : a.filename ≠ c.filename) :
    a.lt (PyObject.reporter b) ≠ b.lt (PyObject.reporter a) ∧
    (a.lt (PyObject.reporter b) = true → b.lt (PyObject.reporter c) = true →
      a.lt (PyObject.reporter c) = true) := by
  constructor
  · rcases lt_or_gt_of_ne hab with h | h
    · simp [FileReporter.lt, h, lt_asymm h]
    · simp [FileReporter.lt, h, lt_asymm h]
  · intro h1 h2
    simp only [FileReporter.lt, decide_eq_true_eq] at h1 h2 ⊢
    exact lt_trans h1 h2

/-- Witness for C3 at three concrete reporters with distinct paths. -/
theorem lt_strict_total_order_witness :
    (FileReporter.mk "a.py" []).lt (PyObject.reporter ⟨"b.py", []⟩) ≠
      (FileReporter.mk "b.py" []).lt (PyObject.reporter ⟨"a.py", []⟩) ∧
    ((FileReporter.mk "a.py" []).lt (PyObject.reporter ⟨"b.py", []⟩) = true →
      (FileReporter.mk "b.py" []).lt (PyObject.reporter ⟨"c.py", []⟩) = true →
      (FileReporter.mk "a.py" []).lt (PyObject.reporter ⟨"c.py", []⟩) = true) :=
  lt_strict_total_order ⟨"a.py", []⟩ ⟨"b.py", []⟩ ⟨"c.py", []⟩
    (by decide) (by decide) (by decide)

/-- C4: for every reporter using the default implementations, `exit_counts`
agrees with `arcs`: every `prev` line of an arc is mapped to its number of
distinct `next` values — vacuously, since the default `arcs()` is empty and
the default `exit_counts()` is the empty mapping. -/
theorem exit_counts_consistent_with_arcs (r : FileReporter) : ExitCountsConsistent r := by
  intro p hp
  simp only [FileReporter.arcs] at hp
  exact absurd hp (Finset.not_mem_empty p)

/-- Witness for C4 at a concrete reporter. -/
theorem exit_counts_consistent_with_arcs_witness :
    ExitCountsConsistent ⟨"foo.py", []⟩ :=
  exit_counts_consistent_with_arcs ⟨"foo.py", []⟩

/-- C7: the default `translate_lines` sends any sequence enumerating a set
of recorded lines to exactly that set, and the default `translate_arcs`
returns the recorded arcs unchanged. -/
theorem translate_identity (r : FileReporter) (S : Finset Int) (l : List Int)
    (h : ∀ x : Int, x ∈ l ↔ x ∈ S) (A : Finset (Int × Int)) :
    r.translate_lines l = S ∧ r.translate_arcs A = A := by
  refine ⟨?_, rfl⟩
  ext x
  rw [FileReporter.translate_lines, List.mem_toFinset]
  exact h x

/-- Witness for C7: a concrete enumeration (with a repeat, out of order) of
the set {1, 2}, and a concrete arc set. -/
theorem translate_identity_witness :
    (FileReporter.mk "foo.py" []).translate_lines [2, 1, 2] = {1, 2} ∧
    (FileReporter.mk "foo.py" []).translate_arcs {(1, 2)} = {(1, 2)} :=
  translate_identity ⟨"foo.py", []⟩ {1, 2} [2, 1, 2]
    (by intro x; simp; tauto) {(1, 2)}

/-- C5: the base-class `FileReporter.lines` and `CoveragePlugin.file_reporter`
return a fatal contract violation identifying the offending plugin and
method, never a value. -/
theorem required_methods_fatal (r : FileReporter) (p : CoveragePlugin) (fn : String) :
    r.lines = Except.error ⟨"FileReporter", "lines"⟩ ∧
    p.file_reporter fn = Except.error ⟨p.plugin_name, "file_reporter"⟩ :=
  ⟨rfl, rfl⟩

/-- C6: the default `missing_arc_description` is the string
"Line {start} didn't jump to line {end}" for every pair of integers, and in
particular gives the literal "Line 5 didn't jump to line -1" at (5, -1)
with no executed-arcs context. -/
theorem missing_arc_description_default (r : FileReporter) (start stop : Int)
    (ea : Option (Finset (Int × Int))) :
    r.missing_arc_description start stop ea =
      "Line " ++ toString start ++ " didn't jump to line " ++ toString stop ∧
    r.missing_arc_description 5 (-1) none = "Line 5 didn't jump to line -1" :=
  ⟨rfl, by simp only [FileReporter.missing_arc_description]; decide⟩

/-- C8: the default `line_number_range` returns the pair
`(frame_line, frame_line)` for every frame, whose two components are equal
and are the frame's own current line. -/
theorem line_number_range_default (t : FileTracer) (frame : FrameType) :
    t.line_number_range frame = (frame.f_lineno, frame.f_lineno) ∧
    (t.line_number_range frame).1 = (t.line_number_range frame).2 :=
  ⟨rfl, rfl⟩

/-- C9: the hash slot of `FileReporter` is removed (set to none), so hashing
any reporter instance fails instead of producing a hash value. -/
theorem file_reporter_not_hashable :
    FileReporter.hashSlot = none ∧ ∀ r : FileReporter, pyHash r = Except.error "unhashable type" :=
  ⟨rfl, fun _ => rfl⟩

/-- C10: comparing a reporter with any non-FileReporter value is total and
returns false, for both the equality and the less-than test, whatever the
reporter's path and whatever the other value is. -/
theorem compare_non_reporter_false (r : FileReporter) (desc : String) :
    r.eq (PyObject.other desc) = false ∧ r.lt (PyObject.other desc) = false :=
  ⟨rfl, rfl⟩
